import Mathlib

/-!
# Server cooling simulation environment: a shallow embedding

The repository ships a demonstration script (`basic_usage_example.py`)
exercising a simulation `Environment` for a data-center server room.
The environment module itself is described in the specification: it owns
the calendar index, ambient temperature, user load, data rate, the
controlled server temperature, and two cumulative energy counters, and
exposes four operations (construction, `observe`, `update_env`, `reset`).

All real values are modelled as rationals (`ℚ`) so that every definition
is executable and every concrete run can be checked by evaluation.
Randomness is modelled by an explicit generator state (a natural number
advanced by a linear congruential step) owned by the environment and
seeded at construction, as the design notes of the specification require.
Fallible operations return `Except`: construction fails with a
`ConfigError`, and `update_env` / `reset` fail with a `ValidationError`
on an out-of-range month.
-/

/-- Modelled from the spec: implementation-chosen monthly ambient-temperature
baseline, one value per calendar month (the environment module is not in the
repository sources; §3 of the spec fixes only that the ambient temperature is
a deterministic function of the month). -/
def monthly_atmospheric_temperatures : List ℚ :=
  [1, 5, 7, 10, 11, 20, 23, 24, 22, 10, 5, 1]

/-- Modelled from the spec: lower bound of the user-load interval
(implementation-chosen constant, §4.1). -/
def min_number_users : Int := 10

/-- Modelled from the spec: upper bound of the user-load interval. -/
def max_number_users : Int := 100

/-- Modelled from the spec: clip range for the per-step random user delta. -/
def max_update_users : Nat := 5

/-- Modelled from the spec: lower bound of the data-rate interval. -/
def min_rate_data : ℚ := 20

/-- Modelled from the spec: upper bound of the data-rate interval. -/
def max_rate_data : ℚ := 300

/-- Modelled from the spec: clip range for the per-step random data-rate delta. -/
def max_update_data : Nat := 10

/-- Modelled from the spec: per-unit temperature effect of a change in
ambient temperature (scaling constant of the temperature model, §4.1). -/
def ambient_temp_coefficient : ℚ := 1

/-- Modelled from the spec: per-unit temperature effect of a change in the
user count. -/
def user_temp_coefficient : ℚ := 5 / 4

/-- Modelled from the spec: per-unit temperature effect of a change in the
data rate. -/
def rate_temp_coefficient : ℚ := 5 / 4

/-- Modelled from the spec: actuation scaling factor of step 4 of
`update_env`. -/
def actuation_coefficient : ℚ := 1

/-- Modelled from the spec: width of the safety margin beyond the optimal
band; the safety interval is `[low - safety_margin, high + safety_margin]`
(§4.1 step 8). -/
def safety_margin : ℚ := 20

/-- Ambient temperature derived from a calendar index: the monthly baseline
value for that month. -/
def ambientTemperature (month : Int) : ℚ :=
  monthly_atmospheric_temperatures.getD month.toNat 0

/-- A linear congruential step of the environment-owned random generator,
over machine words modelled as `Nat` reduced mod `2 ^ 32`. -/
def lcg (s : Nat) : Nat :=
  (1103515245 * s + 12345) % 2 ^ 32

/-- A small random delta in `[-bound, bound]` extracted from a generator
state. -/
def boundedDelta (s : Nat) (bound : Nat) : Int :=
  ((s % (2 * bound + 1) : Nat) : Int) - (bound : Int)

/-- Clip a value to a closed interval. -/
def clip {α : Type} [LinearOrder α] (x lo hi : α) : α :=
  max lo (min x hi)

/-- Errors raised at construction time for invalid configuration
arguments. -/
inductive ConfigError : Type
  | bandInverted : ConfigError
  | monthOutOfRange : ConfigError
  | negativeInitialCount : ConfigError
deriving DecidableEq

/-- Errors raised by `update_env` and `reset` on caller contract
violations. -/
inductive ValidationError : Type
  | monthOutOfRange : ValidationError
deriving DecidableEq

/-- Modelled from the spec: the simulation environment state (the
`environment` module imported by `basic_usage_example.py` is not among the
repository sources). Immutable configuration (the optimal band and the
construction-time initial values) is stored alongside the mutable simulation
state; `rng` is the explicit random-generator state required by the design
notes. -/
structure Environment : Type where
  optimal_low : ℚ
  optimal_high : ℚ
  initial_month : Int
  initial_number_users : Int
  initial_rate_data : ℚ
  initial_temperature : ℚ
  month : Int
  atmospheric_temperature : ℚ
  current_number_users : Int
  current_rate_data : ℚ
  temperature_ai : ℚ
  total_energy_ai : ℚ
  total_energy_noai : ℚ
  reward : ℚ
  rng : Nat
deriving DecidableEq

/-- Modelled from the spec: construction (§4.1). Checks `low < high`,
`month ∈ [0, 11]` and non-negative initial counts, failing fast with a
configuration error otherwise; initializes the ambient temperature from the
month, sets the controlled temperature to the ambient temperature plus a
load/rate-dependent offset, and zeroes both energy counters. -/
def mkEnvironment (optimal_temperature : ℚ × ℚ) (init_month : Int)
    (init_number_users : Int) (init_rate_data : ℚ) (seed : Nat) :
    Except ConfigError Environment :=
  if optimal_temperature.1 < optimal_temperature.2 then
    if 0 ≤ init_month ∧ init_month ≤ 11 then
      if 0 ≤ init_number_users ∧ 0 ≤ init_rate_data then
        let ambient := ambientTemperature init_month
        let temp := ambient + user_temp_coefficient * (init_number_users : ℚ)
          + rate_temp_coefficient * init_rate_data
        Except.ok
          { optimal_low := optimal_temperature.1
            optimal_high := optimal_temperature.2
            initial_month := init_month
            initial_number_users := init_number_users
            initial_rate_data := init_rate_data
            initial_temperature := temp
            month := init_month
            atmospheric_temperature := ambient
            current_number_users := init_number_users
            current_rate_data := init_rate_data
            temperature_ai := temp
            total_energy_ai := 0
            total_energy_noai := 0
            reward := 0
            rng := seed }
      else Except.error ConfigError.negativeInitialCount
    else Except.error ConfigError.monthOutOfRange
  else Except.error ConfigError.bandInverted

/-- True when the controlled temperature lies outside the safety interval
`[low - safety_margin, high + safety_margin]`. -/
def outsideSafety (e : Environment) : Bool :=
  decide (e.temperature_ai < e.optimal_low - safety_margin
    ∨ e.optimal_high + safety_margin < e.temperature_ai)

/-- The normalized observation vector: controlled temperature scaled
relative to the optimal band, normalized user count, normalized data
rate. -/
def stateVector (e : Environment) : List ℚ :=
  [(e.temperature_ai - e.optimal_low) / (e.optimal_high - e.optimal_low),
   ((e.current_number_users : ℚ) - (min_number_users : ℚ))
     / ((max_number_users : ℚ) - (min_number_users : ℚ)),
   (e.current_rate_data - min_rate_data) / (max_rate_data - min_rate_data)]

/-- Modelled from the spec: `observe` (§4.1), a pure accessor. It returns
the normalized observation vector, the reward computed against the current
state, and the termination flag, together with the receiver, which it leaves
unchanged (the environment component of the result is the unmodified
input state, making the absence of mutation explicit). -/
def observe (e : Environment) : (List ℚ × ℚ × Bool) × Environment :=
  ((stateVector e, e.reward, outsideSafety e), e)

/-- The termination flag reported by `observe`. -/
def observedDone (e : Environment) : Bool :=
  (observe e).1.2.2

/-- Modelled from the spec: `update_env` (§4.1). In order: validate the
month, update the ambient temperature, perturb user count and data rate by
independent clipped random deltas, compute the intrinsic temperature delta
from the changes in ambient temperature, user count and data rate, apply
the actuation delta `direction * energy_ai * actuation_coefficient`,
accumulate `energy_ai` into `total_energy_ai` and the baseline energy
(the magnitude of the intrinsic drift a naive controller would have to
counteract to hold a fixed setpoint) into `total_energy_noai`, compute the
reward as the baseline energy of this step minus the controller energy of this step,
and report `done` iff the new temperature falls outside the safety
interval. -/
def update_env (e : Environment) (direction : Int) (energy_ai : ℚ)
    (month : Int) :
    Except ValidationError ((List ℚ × ℚ × Bool) × Environment) :=
  if 0 ≤ month ∧ month ≤ 11 then
    let new_ambient := ambientTemperature month
    let s1 := lcg e.rng
    let s2 := lcg s1
    let new_users := clip
      (e.current_number_users + boundedDelta s1 max_update_users)
      min_number_users max_number_users
    let new_rate := clip
      (e.current_rate_data + ((boundedDelta s2 max_update_data : Int) : ℚ))
      min_rate_data max_rate_data
    let intrinsic_delta :=
      ambient_temp_coefficient * (new_ambient - e.atmospheric_temperature)
        + user_temp_coefficient * ((new_users - e.current_number_users : Int) : ℚ)
        + rate_temp_coefficient * (new_rate - e.current_rate_data)
    let new_temp := e.temperature_ai + intrinsic_delta
      + (direction : ℚ) * energy_ai * actuation_coefficient
    let energy_noai := |intrinsic_delta|
    let step_reward := energy_noai - energy_ai
    let e2 : Environment :=
      { e with
        month := month
        atmospheric_temperature := new_ambient
        current_number_users := new_users
        current_rate_data := new_rate
        temperature_ai := new_temp
        total_energy_ai := e.total_energy_ai + energy_ai
        total_energy_noai := e.total_energy_noai + energy_noai
        reward := step_reward
        rng := s2 }
    Except.ok ((stateVector e2, step_reward, outsideSafety e2), e2)
  else Except.error ValidationError.monthOutOfRange

/-- Modelled from the spec: `reset` (§4.2). Validates the month,
reinitializes user count, data rate and controlled temperature to their
construction-time initial values, zeroes both energy counters, and
re-derives the ambient temperature from the supplied month. In the
embedding the updated state is passed back explicitly; the operation
produces no observation (the caller re-queries via `observe`). -/
def reset (e : Environment) (month : Int) :
    Except ValidationError Environment :=
  if 0 ≤ month ∧ month ≤ 11 then
    Except.ok
      { e with
        month := month
        atmospheric_temperature := ambientTemperature month
        current_number_users := e.initial_number_users
        current_rate_data := e.initial_rate_data
        temperature_ai := e.initial_temperature
        total_energy_ai := 0
        total_energy_noai := 0
        reward := 0 }
  else Except.error ValidationError.monthOutOfRange

/-- Run a sequence of `update_env` actions (direction, energy, month),
collecting the observation triple returned by each step; a validation error
ends the trace. -/
def runTrace (e : Environment) :
    List (Int × ℚ × Int) →
    List (Except ValidationError (List ℚ × ℚ × Bool))
  | [] => []
  | (d, en, m) :: rest =>
    match update_env e d en m with
    | Except.ok (obs, e2) => Except.ok obs :: runTrace e2 rest
    | Except.error err => [Except.error err]

/-- True exactly on the error branch of an `Except`. -/
def isError {ε α : Type} : Except ε α → Bool
  | Except.error _ => true
  | Except.ok _ => false

/-- Modelled from the spec: default construction arguments. The example
script calls `Environment()` with no arguments, so every construction
parameter carries a default value; the concrete defaults are
implementation-chosen. -/
def default_optimal_temperature : ℚ × ℚ := (18, 24)

/-- Modelled from the spec: default initial month. -/
def default_initial_month : Int := 0

/-- Modelled from the spec: default initial user count. -/
def default_initial_number_users : Int := 10

/-- Modelled from the spec: default initial data rate. -/
def default_initial_rate_data : ℚ := 60

/-- Modelled from the spec: default random seed for the
environment-owned generator. -/
def default_seed : Nat := 42

/-- Construction with every parameter left at its default value, the
zero-argument `Environment()` call of the example script. -/
def mkEnvironmentDefault : Except ConfigError Environment :=
  mkEnvironment default_optimal_temperature default_initial_month
    default_initial_number_users default_initial_rate_data default_seed

/-- A ground environment literal, used only as a fallback when extracting
the payload of an `Except` that is known to be `ok`. -/
def zeroEnvironment : Environment :=
  { optimal_low := 0
    optimal_high := 1
    initial_month := 0
    initial_number_users := 0
    initial_rate_data := 0
    initial_temperature := 0
    month := 0
    atmospheric_temperature := 0
    current_number_users := 0
    current_rate_data := 0
    temperature_ai := 0
    total_energy_ai := 0
    total_energy_noai := 0
    reward := 0
    rng := 0 }

/-- The default-constructed environment. -/
def defaultEnv : Environment :=
  (mkEnvironmentDefault).toOption.getD zeroEnvironment

/-- Extract the payload of an `update_env` result, with a fallback on the
error branch. -/
def stepOutcome
    (r : Except ValidationError ((List ℚ × ℚ × Bool) × Environment)) :
    (List ℚ × ℚ × Bool) × Environment :=
  r.toOption.getD ((([] : List ℚ), 0, false), zeroEnvironment)

/-- Extract the payload of a `reset` result, with a fallback on the error
branch. -/
def resetOutcome (r : Except ValidationError Environment) : Environment :=
  r.toOption.getD zeroEnvironment

/-- A sample valid construction whose derived initial temperature lies
inside the safety interval of its band. -/
def insideEnv : Environment :=
  (mkEnvironment (18, 24) 0 0 10 0).toOption.getD zeroEnvironment

theorem le_clip {α : Type} [LinearOrder α] (x lo hi : α) : lo ≤ clip x lo hi :=
  le_max_left _ _

theorem clip_le {α : Type} [LinearOrder α] (x lo hi : α) (h : lo ≤ hi) :
    clip x lo hi ≤ hi :=
  max_le h (min_le_right _ _)

/-- C1: for every call to `update_env` in a running episode, the reward
returned is the energy the naive baseline spent this step minus the energy
the controller spent this step, i.e. the per-step deltas of
`total_energy_noai` and `total_energy_ai`, not the cumulative totals. -/
theorem update_env_reward_eq_step_savings (e : Environment) (d : Int)
    (en : ℚ) (m : Int) (res : (List ℚ × ℚ × Bool) × Environment)
    (h : update_env e d en m = Except.ok res) :
    res.1.2.1 = (res.2.total_energy_noai - e.total_energy_noai)
      - (res.2.total_energy_ai - e.total_energy_ai) := by
  unfold update_env at h
  split at h
  · injection h with h
    subst h
    simp only
    ring
  · exact Except.noConfusion h

theorem update_env_reward_eq_step_savings_witness :
    (stepOutcome (update_env defaultEnv (-1) 2 1)).1.2.1
      = ((stepOutcome (update_env defaultEnv (-1) 2 1)).2.total_energy_noai
          - defaultEnv.total_energy_noai)
        - ((stepOutcome (update_env defaultEnv (-1) 2 1)).2.total_energy_ai
          - defaultEnv.total_energy_ai) :=
  update_env_reward_eq_step_savings defaultEnv (-1) 2 1
    (stepOutcome (update_env defaultEnv (-1) 2 1)) rfl

/-- C2: for every call to `update_env`, the returned `done` flag is true
iff the new controlled temperature lies outside the safety interval
`[low - safety_margin, high + safety_margin]`; in particular the
environment never returns `done = false` while the temperature is outside
that bound. -/
theorem update_env_done_iff_outside_safety (e : Environment) (d : Int)
    (en : ℚ) (m : Int) (res : (List ℚ × ℚ × Bool) × Environment)
    (h : update_env e d en m = Except.ok res) :
    (res.1.2.2 = true ↔
      (res.2.temperature_ai < res.2.optimal_low - safety_margin
        ∨ res.2.optimal_high + safety_margin < res.2.temperature_ai))
    ∧ (res.1.2.2 = false →
        res.2.optimal_low - safety_margin ≤ res.2.temperature_ai
          ∧ res.2.temperature_ai ≤ res.2.optimal_high + safety_margin) := by
  unfold update_env at h
  split at h
  · injection h with h
    subst h
    constructor
    · simp [outsideSafety]
    · intro hf
      simp only [outsideSafety, decide_eq_false_iff_not, not_or, not_lt] at hf
      exact hf
  · exact Except.noConfusion h

theorem update_env_done_iff_outside_safety_witness :
    ((stepOutcome (update_env defaultEnv (-1) 2 1)).1.2.2 = true ↔
      ((stepOutcome (update_env defaultEnv (-1) 2 1)).2.temperature_ai
          < (stepOutcome (update_env defaultEnv (-1) 2 1)).2.optimal_low
            - safety_margin
        ∨ (stepOutcome (update_env defaultEnv (-1) 2 1)).2.optimal_high
            + safety_margin
          < (stepOutcome (update_env defaultEnv (-1) 2 1)).2.temperature_ai))
    ∧ ((stepOutcome (update_env defaultEnv (-1) 2 1)).1.2.2 = false →
        (stepOutcome (update_env defaultEnv (-1) 2 1)).2.optimal_low
            - safety_margin
          ≤ (stepOutcome (update_env defaultEnv (-1) 2 1)).2.temperature_ai
        ∧ (stepOutcome (update_env defaultEnv (-1) 2 1)).2.temperature_ai
          ≤ (stepOutcome (update_env defaultEnv (-1) 2 1)).2.optimal_high
            + safety_margin) :=
  update_env_done_iff_outside_safety defaultEnv (-1) 2 1
    (stepOutcome (update_env defaultEnv (-1) 2 1)) rfl

/-- C3: each `update_env` call with a non-negative actuation energy leaves
both cumulative counters `total_energy_ai` and `total_energy_noai` greater
than or equal to their values before the call, so along any episode both
are non-decreasing. -/
theorem update_env_energy_counters_monotone (e : Environment) (d : Int)
    (en : ℚ) (m : Int) (res : (List ℚ × ℚ × Bool) × Environment)
    (hen : 0 ≤ en) (h : update_env e d en m = Except.ok res) :
    e.total_energy_ai ≤ res.2.total_energy_ai
    ∧ e.total_energy_noai ≤ res.2.total_energy_noai := by
  unfold update_env at h
  split at h
  · injection h with h
    subst h
    constructor
    · exact le_add_of_nonneg_right hen
    · exact le_add_of_nonneg_right (abs_nonneg _)
  · exact Except.noConfusion h

theorem update_env_energy_counters_monotone_witness :
    defaultEnv.total_energy_ai
      ≤ (stepOutcome (update_env defaultEnv (-1) 2 1)).2.total_energy_ai
    ∧ defaultEnv.total_energy_noai
      ≤ (stepOutcome (update_env defaultEnv (-1) 2 1)).2.total_energy_noai :=
  update_env_energy_counters_monotone defaultEnv (-1) 2 1
    (stepOutcome (update_env defaultEnv (-1) 2 1)) (by norm_num) rfl

/-- C8: after every successful `update_env` call, the user count lies
within `[min_number_users, max_number_users]` and the data rate lies
within `[min_rate_data, max_rate_data]`: each step perturbs them by a
small random delta and clips the result to the configured bounds. -/
theorem update_env_load_and_rate_within_bounds (e : Environment) (d : Int)
    (en : ℚ) (m : Int) (res : (List ℚ × ℚ × Bool) × Environment)
    (h : update_env e d en m = Except.ok res) :
    min_number_users ≤ res.2.current_number_users
    ∧ res.2.current_number_users ≤ max_number_users
    ∧ min_rate_data ≤ res.2.current_rate_data
    ∧ res.2.current_rate_data ≤ max_rate_data := by
  unfold update_env at h
  split at h
  · injection h with h
    subst h
    refine ⟨le_clip _ _ _, clip_le _ _ _ ?_, le_clip _ _ _, clip_le _ _ _ ?_⟩
    · decide
    · norm_num [min_rate_data, max_rate_data]
  · exact Except.noConfusion h

theorem update_env_load_and_rate_within_bounds_witness :
    min_number_users
      ≤ (stepOutcome (update_env defaultEnv (-1) 2 1)).2.current_number_users
    ∧ (stepOutcome (update_env defaultEnv (-1) 2 1)).2.current_number_users
      ≤ max_number_users
    ∧ min_rate_data
      ≤ (stepOutcome (update_env defaultEnv (-1) 2 1)).2.current_rate_data
    ∧ (stepOutcome (update_env defaultEnv (-1) 2 1)).2.current_rate_data
      ≤ max_rate_data :=
  update_env_load_and_rate_within_bounds defaultEnv (-1) 2 1
    (stepOutcome (update_env defaultEnv (-1) 2 1)) rfl

/-- C4: two independent `Environment` instances constructed from the same
band, initial month, user count, data rate and random seed produce, on any
identical sequence of (direction, energy, month) actions, identical
observation, reward and done sequences: the generator is owned by the
instance and the whole trace is a function of the construction inputs. -/
theorem trace_deterministic_under_equal_seed (band : ℚ × ℚ) (m0 u : Int)
    (r : ℚ) (seed : Nat) (e1 e2 : Environment)
    (acts : List (Int × ℚ × Int))
    (h1 : mkEnvironment band m0 u r seed = Except.ok e1)
    (h2 : mkEnvironment band m0 u r seed = Except.ok e2) :
    runTrace e1 acts = runTrace e2 acts := by
  rw [h1] at h2
  injection h2 with h2
  rw [h2]

theorem trace_deterministic_under_equal_seed_witness :
    runTrace defaultEnv [((-1 : Int), ((2 : ℚ), (1 : Int)))]
      = runTrace defaultEnv [((-1 : Int), ((2 : ℚ), (1 : Int)))] :=
  trace_deterministic_under_equal_seed default_optimal_temperature
    default_initial_month default_initial_number_users
    default_initial_rate_data default_seed defaultEnv defaultEnv
    [((-1 : Int), ((2 : ℚ), (1 : Int)))] rfl rfl

/-- C5: `reset(month)`, called with a valid month on an environment whose
recorded construction-time initial values are those recorded at construction,
sets user count, data rate and controlled temperature back to their
construction-time initial values, zeroes both energy counters, and
re-derives the ambient temperature from the supplied month. -/
theorem reset_restores_initial_state (band : ℚ × ℚ) (m0 u : Int) (r : ℚ)
    (s : Nat) (e0 e : Environment) (m : Int) (e2 : Environment)
    (h0 : mkEnvironment band m0 u r s = Except.ok e0)
    (hu : e.initial_number_users = e0.initial_number_users)
    (hr : e.initial_rate_data = e0.initial_rate_data)
    (ht : e.initial_temperature = e0.initial_temperature)
    (h : reset e m = Except.ok e2) :
    e2.current_number_users = u ∧ e2.current_rate_data = r
    ∧ e2.temperature_ai = e0.temperature_ai
    ∧ e2.total_energy_ai = 0 ∧ e2.total_energy_noai = 0
    ∧ e2.atmospheric_temperature = ambientTemperature m := by
  unfold reset at h
  split at h
  · injection h with h
    subst h
    unfold mkEnvironment at h0
    split at h0
    · split at h0
      · split at h0
        · injection h0 with h0
          subst h0
          exact ⟨hu, hr, ht, rfl, rfl, rfl⟩
        · exact Except.noConfusion h0
      · exact Except.noConfusion h0
    · exact Except.noConfusion h0
  · exact Except.noConfusion h

theorem reset_restores_initial_state_witness :
    (resetOutcome (reset defaultEnv 3)).current_number_users
      = default_initial_number_users
    ∧ (resetOutcome (reset defaultEnv 3)).current_rate_data
      = default_initial_rate_data
    ∧ (resetOutcome (reset defaultEnv 3)).temperature_ai
      = defaultEnv.temperature_ai
    ∧ (resetOutcome (reset defaultEnv 3)).total_energy_ai = 0
    ∧ (resetOutcome (reset defaultEnv 3)).total_energy_noai = 0
    ∧ (resetOutcome (reset defaultEnv 3)).atmospheric_temperature
      = ambientTemperature 3 :=
  reset_restores_initial_state default_optimal_temperature
    default_initial_month default_initial_number_users
    default_initial_rate_data default_seed defaultEnv defaultEnv 3
    (resetOutcome (reset defaultEnv 3)) rfl rfl rfl rfl rfl

/-- C6 counterexample: a valid construction (band `[100, 101]`, month 0,
zero initial counts) whose derived initial temperature lies below the
safety interval, so `observe` immediately after construction reports
`done = true`. -/
theorem construction_can_start_outside_safety :
    (mkEnvironment (100, 101) 0 0 0 0).toOption.map observedDone
      = some true := by
  norm_num [mkEnvironment, Except.toOption, observedDone, observe,
    outsideSafety, ambientTemperature, monthly_atmospheric_temperatures,
    user_temp_coefficient, rate_temp_coefficient, safety_margin]

/-- C6 amended: `observe` immediately after a valid construction returns
`done = false` whenever the derived initial controlled temperature lies
inside the safety interval of the configured band; initial conditions are
not unconditionally inside the safety bound, because the derived initial
temperature depends on ambient temperature and load but not on the band. -/
theorem observe_done_false_when_initial_temperature_inside (band : ℚ × ℚ)
    (m u : Int) (r : ℚ) (s : Nat) (e : Environment)
    (h : mkEnvironment band m u r s = Except.ok e)
    (hlo : band.1 - safety_margin ≤ e.temperature_ai)
    (hhi : e.temperature_ai ≤ band.2 + safety_margin) :
    observedDone e = false := by
  unfold mkEnvironment at h
  split at h
  · split at h
    · split at h
      · injection h with h
        subst h
        simp only [observedDone, observe, outsideSafety,
          decide_eq_false_iff_not, not_or, not_lt]
        exact ⟨hlo, hhi⟩
      · exact Except.noConfusion h
    · exact Except.noConfusion h
  · exact Except.noConfusion h

theorem observe_done_false_when_initial_temperature_inside_witness :
    observedDone insideEnv = false :=
  observe_done_false_when_initial_temperature_inside (18, 24) 0 0 10 0
    insideEnv rfl
    (by norm_num [insideEnv, mkEnvironment, Except.toOption,
      ambientTemperature, monthly_atmospheric_temperatures,
      user_temp_coefficient, rate_temp_coefficient, safety_margin])
    (by norm_num [insideEnv, mkEnvironment, Except.toOption,
      ambientTemperature, monthly_atmospheric_temperatures,
      user_temp_coefficient, rate_temp_coefficient, safety_margin])

/-- C7: invalid construction arguments (an inverted optimal band or an
out-of-range month) cause construction to fail fast with a configuration
error, and an out-of-range month passed to `update_env` or `reset` causes
the call to fail with a validation error rather than being silently
wrapped into range. -/
theorem invalid_arguments_fail_fast (low high : ℚ) (m u : Int) (r : ℚ)
    (s : Nat) (e : Environment) (d : Int) (en : ℚ) (m2 : Int)
    (hbad : high ≤ low ∨ m < 0 ∨ 11 < m)
    (hm2 : m2 < 0 ∨ 11 < m2) :
    isError (mkEnvironment (low, high) m u r s) = true
    ∧ isError (update_env e d en m2) = true
    ∧ isError (reset e m2) = true := by
  have hm2f : ¬ (0 ≤ m2 ∧ m2 ≤ 11) := by
    rcases hm2 with h1 | h1 <;> omega
  refine ⟨?_, ?_, ?_⟩
  · unfold mkEnvironment
    by_cases hlh : low < high
    · rcases hbad with hb | hm | hm
      · exact absurd hlh (not_lt.mpr hb)
      · rw [if_pos hlh, if_neg (by omega)]
        rfl
      · rw [if_pos hlh, if_neg (by omega)]
        rfl
    · rw [if_neg hlh]
      rfl
  · unfold update_env
    rw [if_neg hm2f]
    rfl
  · unfold reset
    rw [if_neg hm2f]
    rfl

theorem invalid_arguments_fail_fast_witness :
    isError (mkEnvironment (24, 18) 0 0 0 0) = true
    ∧ isError (update_env defaultEnv 1 1 12) = true
    ∧ isError (reset defaultEnv 12) = true :=
  invalid_arguments_fail_fast 24 18 0 0 0 0 defaultEnv 1 1 12
    (Or.inl (by norm_num)) (Or.inr (by norm_num))

/-- C9: `observe` mutates no state: for every environment state, the state
component it passes back is the receiver itself, every field unchanged,
and the observation component is the triple of normalized state vector,
reward and termination flag. -/
theorem observe_is_pure (e : Environment) :
    (observe e).2 = e
    ∧ (observe e).1 = (stateVector e, e.reward, outsideSafety e) :=
  ⟨rfl, rfl⟩

/-- C10: construction succeeds with every parameter left at its default
value, and the resulting instance supports the same `observe`,
`update_env` and `reset` operations as an explicitly configured one. -/
theorem default_construction_succeeds :
    mkEnvironmentDefault = Except.ok defaultEnv
    ∧ isError (update_env defaultEnv 1 1 0) = false
    ∧ isError (reset defaultEnv 0) = false
    ∧ (observe defaultEnv).1.1.length = 3 :=
  ⟨rfl, rfl, rfl, rfl⟩
